import Mathlib

/-!
Shallow embedding of `src/lib/utils/appsync.ts` (wasedatime-backend):
the Relay-style Edge/Connection generator over AppSync `ObjectType`
descriptors, together with the scalar type constants and the shared
`PageInfo` descriptor.

Modelling conventions:
* an `ObjectType` carries a numeric `id` standing for JavaScript object
  identity: every `new ObjectType(...)` allocation yields a fresh `id`,
  so the JS reference comparison `base == target` is `base.id == target.id`;
* a JS object literal is evaluated by `jsObject`, which reproduces the
  duplicate-key semantics of object literals: a later entry with an
  already-present key overwrites the value in place (the key keeps its
  first position), otherwise the entry is appended;
* `toLowerCase` models JavaScript `String.prototype.toLowerCase` by
  lower-casing every character (ASCII letters, via `Char.toLower`);
* the external `pluralize` library is passed as a function argument
  `pluralize : String → String`, as the source treats it as an opaque
  imported routine;
* allocation order in the source is made explicit: the pure generators
  take the fresh `id` as an argument, and the `...H` variants thread the
  list of all descriptors constructed so far, appending each new one.
-/

namespace WasedaTime

/-- Scalar kinds of the GraphQL type system used by `appsync.ts`. -/
inductive ScalarKind where
  | int
  | string
  | id
  | boolean
  | float

/-- A GraphQL attribute type: either a scalar or a reference to an
intermediate (object) type, each with `isList` / `isRequired` modifiers.
An `intermediate` reference embeds the referenced object's identity,
name and field definition, mirroring how the construct library's
`attribute()` captures the intermediate type. -/
inductive GraphqlType where
  | scalar (kind : ScalarKind) (isList : Bool) (isRequired : Bool)
  | intermediate (objId : Nat) (objName : String)
      (objDef : List (String × GraphqlType)) (isList : Bool) (isRequired : Bool)

/-- An `ObjectType` descriptor: identity tag, name, and ordered field
definition, as constructed by `new ObjectType(name, {definition})`. -/
structure ObjectType where
  id : Nat
  name : String
  definition : List (String × GraphqlType)

/-- Models `type.attribute({isList, isRequired})` from the construct
library: build a reference to an object type with the given modifiers. -/
def ObjectType.attribute (t : ObjectType) (isList : Bool) (isRequired : Bool) :
    GraphqlType :=
  .intermediate t.id t.name t.definition isList isRequired

/-- Models evaluation of one entry of a JS object literal: if the key is
already present the value is overwritten in place, otherwise the entry
is appended. -/
def jsInsert {α : Type} (obj : List (String × α)) (k : String) (v : α) :
    List (String × α) :=
  if obj.any (fun p => p.1 == k) then
    obj.map (fun p => if p.1 == k then (k, v) else p)
  else
    obj ++ [(k, v)]

/-- Models evaluation of a whole JS object literal, left to right. -/
def jsObject {α : Type} (entries : List (String × α)) : List (String × α) :=
  entries.foldl (fun acc p => jsInsert acc p.1 p.2) []

/-- Models JavaScript `String.prototype.toLowerCase` (ASCII letters). -/
def toLowerCase (s : String) : String :=
  ⟨s.data.map Char.toLower⟩

/-- Source: `export const int = GraphqlType.int();` -/
def int : GraphqlType := .scalar .int false false

/-- Source: `export const list_int = GraphqlType.int({isList: true});` -/
def list_int : GraphqlType := .scalar .int true false

/-- Source: `export const string = GraphqlType.string();` -/
def string : GraphqlType := .scalar .string false false

/-- Source: `export const list_string = GraphqlType.string({isList: true});` -/
def list_string : GraphqlType := .scalar .string true false

/-- Source: `export const required_string = GraphqlType.string({isRequired: true});` -/
def required_string : GraphqlType := .scalar .string false true

/-- Source: `export const id = GraphqlType.id();` -/
def id : GraphqlType := .scalar .id false false

/-- Source: `export const required_id = GraphqlType.id({isRequired: true});` -/
def required_id : GraphqlType := .scalar .id false true

/-- Source: `export const required_boolean = GraphqlType.boolean({isRequired: true});` -/
def required_boolean : GraphqlType := .scalar .boolean false true

/-- Source: `export const float = GraphqlType.float();` -/
def float : GraphqlType := .scalar .float false false

/-- Source: `export const list_of = (type) => type.attribute({isList: true});` -/
def list_of (t : ObjectType) : GraphqlType := t.attribute true false

/-- Source: `export const required = (type) => type.attribute({isRequired: true});` -/
def required (t : ObjectType) : GraphqlType := t.attribute false true

/-- Source: the module-level `PageInfo` object type, created once; we fix
its identity tag at 0. -/
def PageInfo : ObjectType :=
  { id := 0
    name := "PageInfo"
    definition := jsObject [
      ("hasNextPage", required_boolean),
      ("hasPreviousPage", required_boolean),
      ("startCursor", string),
      ("endCursor", string)] }

/-- Source: `interface baseOptions { base: ObjectType; target: ObjectType }`. -/
structure baseOptions where
  base : ObjectType
  target : ObjectType

/-- Source: `obtainName(suffix, options)`. The reference comparison
`options.base == options.target` is identity comparison of the two
descriptors. -/
def obtainName (pluralize : String → String) (suffix : String)
    (options : baseOptions) : String :=
  let isSame : Bool := options.base.id == options.target.id
  let pre := if isSame then "" else options.base.name
  let target := pluralize options.target.name
  pre ++ target ++ suffix

/-- Source: `generateEdge(options)`; `fresh` is the identity of the newly
allocated descriptor. -/
def generateEdge (pluralize : String → String) (fresh : Nat)
    (options : baseOptions) : ObjectType :=
  let name := obtainName pluralize "Edge" options
  { id := fresh
    name := name
    definition := jsObject [
      ("node", options.target.attribute false false),
      ("cursor", required_string)] }

/-- Source: `generateConnection(edge, options)`; `fresh` is the identity
of the newly allocated descriptor. The fourth field uses the computed
key `[plural]`, so the literal is evaluated by `jsObject`. -/
def generateConnection (pluralize : String → String) (fresh : Nat)
    (edge : ObjectType) (options : baseOptions) : ObjectType :=
  let name := obtainName pluralize "Connection" options
  let plural := toLowerCase (pluralize options.target.name)
  { id := fresh
    name := name
    definition := jsObject [
      ("pageInfo", PageInfo.attribute false true),
      ("edges", edge.attribute true false),
      ("totalCount", int),
      (plural, options.target.attribute true false)] }

/-- Result record of `generateConnectionAndEdge`: the source returns the
object `{edge: edge, connection: connection}`. -/
structure ConnectionAndEdge where
  edge : ObjectType
  connection : ObjectType

/-- Source: `generateConnectionAndEdge(options)`: build the edge, then the
connection from that edge, and return both. The source allocates the edge
first, then the connection. -/
def generateConnectionAndEdge (pluralize : String → String)
    (freshEdge freshConnection : Nat) (options : baseOptions) :
    ConnectionAndEdge :=
  let edge := generateEdge pluralize freshEdge options
  let connection := generateConnection pluralize freshConnection edge options
  { edge := edge, connection := connection }

/-- Allocation-aware variant of `generateEdge`: the descriptors constructed
so far form the list `heap`; the new edge gets the next fresh identity and
is appended. -/
def generateEdgeH (pluralize : String → String) (heap : List ObjectType)
    (options : baseOptions) : ObjectType × List ObjectType :=
  let edge := generateEdge pluralize heap.length options
  (edge, heap ++ [edge])

/-- Allocation-aware variant of `generateConnection`. -/
def generateConnectionH (pluralize : String → String) (heap : List ObjectType)
    (edge : ObjectType) (options : baseOptions) : ObjectType × List ObjectType :=
  let connection := generateConnection pluralize heap.length edge options
  (connection, heap ++ [connection])

/-- Shape of a GraphQL type with all identity tags erased: what remains is
the name/field structure, used to compare descriptors by value. -/
inductive TypeShape where
  | scalar (kind : ScalarKind) (isList : Bool) (isRequired : Bool)
  | intermediate (objName : String) (objDef : List (String × TypeShape))
      (isList : Bool) (isRequired : Bool)

mutual

/-- Erase identity tags from an attribute type. -/
def eraseType : GraphqlType → TypeShape
  | .scalar k l r => .scalar k l r
  | .intermediate _ n d l r => .intermediate n (eraseFields d) l r

/-- Erase identity tags from a field definition list. -/
def eraseFields : List (String × GraphqlType) → List (String × TypeShape)
  | [] => []
  | (k, t) :: rest => (k, eraseType t) :: eraseFields rest

end

/-- Value (shape) of an object type descriptor: its name and the shapes of
its fields, ignoring identities. -/
structure ObjShape where
  name : String
  fields : List (String × TypeShape)

/-- Erase identity tags from an object type descriptor. -/
def eraseObj (t : ObjectType) : ObjShape :=
  { name := t.name, fields := eraseFields t.definition }

/-- A sample pluralizer (regular English plural) used to instantiate the
abstract `pluralize` argument in concrete examples. -/
def plEx (s : String) : String := s ++ "s"

/-- Evaluating `Char.ofNat` at a valid codepoint returns that codepoint. -/
theorem toNat_ofNat_valid (n : Nat) (h : n.isValidChar) : (Char.ofNat n).toNat = n := by
  rw [Char.ofNat, dif_pos h]
  rfl

/-- Lower-casing never produces an upper-case ASCII letter. -/
theorem toLower_not_upper (c : Char) :
    ¬(65 ≤ (Char.toLower c).toNat ∧ (Char.toLower c).toNat ≤ 90) := by
  simp only [Char.toLower]
  split
  · rename_i h
    have hv : (c.toNat + 32).isValidChar := Or.inl (by omega)
    rw [toNat_ofNat_valid _ hv]
    omega
  · rename_i h
    omega

/-- No lower-cased string equals the fixed key `"pageInfo"` (it contains
an upper-case letter). -/
theorem toLowerCase_ne_pageInfo (s : String) : toLowerCase s ≠ "pageInfo" := by
  intro h
  have hI : 'I' ∈ (toLowerCase s).data := by
    rw [h]
    decide
  rw [toLowerCase] at hI
  simp only [List.mem_map] at hI
  obtain ⟨c, _, hc⟩ := hI
  have hn := toLower_not_upper c
  rw [hc] at hn
  exact hn (by decide)

/-- No lower-cased string equals the fixed key `"totalCount"` (it contains
an upper-case letter). -/
theorem toLowerCase_ne_totalCount (s : String) : toLowerCase s ≠ "totalCount" := by
  intro h
  have hC : 'C' ∈ (toLowerCase s).data := by
    rw [h]
    decide
  rw [toLowerCase] at hC
  simp only [List.mem_map] at hC
  obtain ⟨c, _, hc⟩ := hC
  have hn := toLower_not_upper c
  rw [hc] at hn
  exact hn (by decide)

/-- The recursive field erasure is the map of the type erasure. -/
theorem eraseFields_eq_map (l : List (String × GraphqlType)) :
    eraseFields l = l.map (fun p => (p.1, eraseType p.2)) := by
  induction l with
  | nil => rfl
  | cons p rest ih =>
    obtain ⟨k, t⟩ := p
    simp [eraseFields, ih]

/-- Mapping a value transformation commutes with one literal-entry step:
`jsInsert` looks only at keys. -/
theorem map_fst_jsInsert {α β : Type} (f : α → β) (obj : List (String × α))
    (k : String) (v : α) :
    (jsInsert obj k v).map (fun p => (p.1, f p.2)) =
      jsInsert (obj.map (fun p => (p.1, f p.2))) k (f v) := by
  have hcond : ((obj.map (fun p => (p.1, f p.2))).any (fun p => p.1 == k)) =
      obj.any (fun p => p.1 == k) := by
    induction obj with
    | nil => rfl
    | cons q rest ih => simp [List.any_cons, ih]
  simp only [jsInsert, hcond]
  by_cases h : obj.any (fun p => p.1 == k)
  · rw [if_pos h, if_pos h]
    simp only [List.map_map]
    apply List.map_congr_left
    intro p _
    by_cases hp : p.1 = k
    · simp [hp]
    · simp [hp]
  · rw [if_neg h, if_neg h]
    simp

/-- Mapping a value transformation commutes with object-literal
evaluation. -/
theorem map_fst_jsObject {α β : Type} (f : α → β) (entries : List (String × α)) :
    (jsObject entries).map (fun p => (p.1, f p.2)) =
      jsObject (entries.map (fun p => (p.1, f p.2))) := by
  suffices hgen : ∀ (acc : List (String × α)),
      (entries.foldl (fun a p => jsInsert a p.1 p.2) acc).map (fun p => (p.1, f p.2)) =
        (entries.map (fun p => (p.1, f p.2))).foldl (fun a p => jsInsert a p.1 p.2)
          (acc.map (fun p => (p.1, f p.2))) by
    simpa [jsObject] using hgen []
  induction entries with
  | nil => intro acc; rfl
  | cons p rest ih =>
    intro acc
    obtain ⟨k, v⟩ := p
    simp only [List.foldl_cons, List.map_cons]
    rw [ih, map_fst_jsInsert]

/-- Identity erasure commutes with object-literal evaluation. -/
theorem eraseFields_jsObject (entries : List (String × GraphqlType)) :
    eraseFields (jsObject entries) =
      jsObject (entries.map (fun p => (p.1, eraseType p.2))) := by
  rw [eraseFields_eq_map, map_fst_jsObject]

/-- Erasing an object reference keeps its name, modifiers, and the erased
fields of the referenced object. -/
theorem eraseType_attribute (t : ObjectType) (isList isRequired : Bool) :
    eraseType (t.attribute isList isRequired) =
      .intermediate t.name (eraseFields t.definition) isList isRequired := rfl

/-- When the computed plural key differs from `"edges"`, the connection
literal evaluates to the four fields in order. -/
theorem connection_def_ne (pluralize : String → String) (fresh : Nat)
    (edge : ObjectType) (options : baseOptions)
    (h : toLowerCase (pluralize options.target.name) ≠ "edges") :
    (generateConnection pluralize fresh edge options).definition =
      [("pageInfo", PageInfo.attribute false true),
       ("edges", edge.attribute true false),
       ("totalCount", int),
       (toLowerCase (pluralize options.target.name),
        options.target.attribute true false)] := by
  have h1 := toLowerCase_ne_pageInfo (pluralize options.target.name)
  have h3 := toLowerCase_ne_totalCount (pluralize options.target.name)
  simp [generateConnection, jsObject, jsInsert, Ne.symm h1, Ne.symm h, Ne.symm h3]

/-- When the computed plural key equals `"edges"`, the computed entry
overwrites the `edges` field and the connection has only three fields. -/
theorem connection_def_eq (pluralize : String → String) (fresh : Nat)
    (edge : ObjectType) (options : baseOptions)
    (h : toLowerCase (pluralize options.target.name) = "edges") :
    (generateConnection pluralize fresh edge options).definition =
      [("pageInfo", PageInfo.attribute false true),
       ("edges", options.target.attribute true false),
       ("totalCount", int)] := by
  simp [generateConnection, h, jsObject, jsInsert]

/-- C1: the naming function returns `pluralize(target.name) ++ suffix` when
`base` and `target` are the identical descriptor, and
`base.name ++ pluralize(target.name) ++ suffix` when they are distinct
descriptors (distinct identities). -/
theorem obtainName_correct (pluralize : String → String) (suffix : String)
    (options : baseOptions) :
    (options.base = options.target →
      obtainName pluralize suffix options = pluralize options.target.name ++ suffix) ∧
    (options.base.id ≠ options.target.id →
      obtainName pluralize suffix options =
        options.base.name ++ pluralize options.target.name ++ suffix) := by
  constructor
  · intro h
    simp [obtainName, h]
  · intro h
    simp [obtainName, h]

/-- Witness for C1: a self-relation and a two-type relation, concretely. -/
theorem obtainName_correct_witness :
    obtainName plEx "Connection" ⟨⟨5, "Review", []⟩, ⟨5, "Review", []⟩⟩ =
      "ReviewsConnection" ∧
    obtainName plEx "Edge" ⟨⟨1, "Student", []⟩, ⟨2, "Course", []⟩⟩ =
      "StudentCoursesEdge" := by
  constructor
  · exact (obtainName_correct plEx "Connection"
      ⟨⟨5, "Review", []⟩, ⟨5, "Review", []⟩⟩).1 rfl
  · exact (obtainName_correct plEx "Edge"
      ⟨⟨1, "Student", []⟩, ⟨2, "Course", []⟩⟩).2 (by decide)

/-- C2 counterexample: for a target type named "Edge" the computed
convenience key is "edges", which collides with the fixed `edges` entry of
the literal: the resulting connection has only three fields and its
`edges` field holds the list of direct target references, not the edge. -/
theorem generateConnection_edge_target_cex :
    (generateConnection plEx 3 ⟨2, "UserEdgesEdge", []⟩
        ⟨⟨1, "User", []⟩, ⟨4, "Edge", []⟩⟩).definition =
      [("pageInfo", PageInfo.attribute false true),
       ("edges", GraphqlType.intermediate 4 "Edge" [] true false),
       ("totalCount", int)] := by
  rfl

/-- C2 (amended): provided the lower-cased pluralized target name is not
the literal key "edges", the connection produced by `generateConnection`
has exactly four fields: `pageInfo` (required reference to the shared
PageInfo), `edges` (list of the supplied edge), `totalCount` (optional
int), and a field named `toLowerCase (pluralize target.name)` holding a
list of direct target references. -/
theorem generateConnection_fields (pluralize : String → String) (fresh : Nat)
    (edge : ObjectType) (options : baseOptions)
    (h : toLowerCase (pluralize options.target.name) ≠ "edges") :
    (generateConnection pluralize fresh edge options).definition =
      [("pageInfo", PageInfo.attribute false true),
       ("edges", edge.attribute true false),
       ("totalCount", int),
       (toLowerCase (pluralize options.target.name),
        options.target.attribute true false)] ∧
    (generateConnection pluralize fresh edge options).definition.length = 4 := by
  have hd := connection_def_ne pluralize fresh edge options h
  refine ⟨hd, ?_⟩
  rw [hd]
  simp

/-- Witness for C2 (amended): Student/Course connection, concretely. -/
theorem generateConnection_fields_witness :
    (generateConnection plEx 3 ⟨2, "StudentCoursesEdge", []⟩
        ⟨⟨1, "Student", []⟩, ⟨4, "Course", []⟩⟩).definition =
      [("pageInfo", PageInfo.attribute false true),
       ("edges", GraphqlType.intermediate 2 "StudentCoursesEdge" [] true false),
       ("totalCount", int),
       ("courses", GraphqlType.intermediate 4 "Course" [] true false)] ∧
    (generateConnection plEx 3 ⟨2, "StudentCoursesEdge", []⟩
        ⟨⟨1, "Student", []⟩, ⟨4, "Course", []⟩⟩).definition.length = 4 := by
  have h := generateConnection_fields plEx 3 ⟨2, "StudentCoursesEdge", []⟩
    ⟨⟨1, "Student", []⟩, ⟨4, "Course", []⟩⟩ (by decide)
  exact h

/-- C3: every edge produced by `generateEdge` is named by the naming
function with suffix "Edge" and has exactly two fields: `node`, a
reference to the target that is neither required nor a list, and
`cursor`, a required string. -/
theorem generateEdge_fields (pluralize : String → String) (fresh : Nat)
    (options : baseOptions) :
    (generateEdge pluralize fresh options).name = obtainName pluralize "Edge" options ∧
    (generateEdge pluralize fresh options).definition =
      [("node", options.target.attribute false false),
       ("cursor", required_string)] := by
  constructor
  · rfl
  · simp [generateEdge, jsObject, jsInsert]

/-- C4: `generateConnectionAndEdge` is exactly the composition of
`generateEdge` followed by `generateConnection` applied to that edge,
returned as the pair `{edge, connection}`. -/
theorem generateConnectionAndEdge_composes (pluralize : String → String)
    (freshEdge freshConnection : Nat) (options : baseOptions) :
    generateConnectionAndEdge pluralize freshEdge freshConnection options =
      { edge := generateEdge pluralize freshEdge options
        connection := generateConnection pluralize freshConnection
          (generateEdge pluralize freshEdge options) options } := rfl

/-- C5: when the lower-cased pluralized target name equals the fixed key
"edges" (e.g. a target type named "Edge"), the computed convenience entry
collides with the fixed `edges` entry: the connection has fewer than four
fields and its `edges` field holds a list of direct target references
instead of a list of the edge descriptor. -/
theorem generateConnection_edges_collision (pluralize : String → String)
    (fresh : Nat) (edge : ObjectType) (options : baseOptions)
    (h : toLowerCase (pluralize options.target.name) = "edges") :
    (generateConnection pluralize fresh edge options).definition =
      [("pageInfo", PageInfo.attribute false true),
       ("edges", options.target.attribute true false),
       ("totalCount", int)] ∧
    (generateConnection pluralize fresh edge options).definition.length < 4 := by
  have hd := connection_def_eq pluralize fresh edge options h
  refine ⟨hd, ?_⟩
  rw [hd]
  simp

/-- Witness for C5: a target literally named "Edge" triggers the collision. -/
theorem generateConnection_edges_collision_witness :
    (generateConnection plEx 7 ⟨6, "ReviewEdgesEdge", []⟩
        ⟨⟨5, "Review", []⟩, ⟨8, "Edge", []⟩⟩).definition =
      [("pageInfo", PageInfo.attribute false true),
       ("edges", GraphqlType.intermediate 8 "Edge" [] true false),
       ("totalCount", int)] ∧
    (generateConnection plEx 7 ⟨6, "ReviewEdgesEdge", []⟩
        ⟨⟨5, "Review", []⟩, ⟨8, "Edge", []⟩⟩).definition.length < 4 := by
  have h := generateConnection_edges_collision plEx 7 ⟨6, "ReviewEdgesEdge", []⟩
    ⟨⟨5, "Review", []⟩, ⟨8, "Edge", []⟩⟩ (by decide)
  exact h

/-- C6: for distinct base "Student" and target "Course" (any identities,
any field definitions, any pluralizer sending "Course" to "Courses"),
`generateConnectionAndEdge` returns an edge named "StudentCoursesEdge"
with fields `node` (reference to Course) and `cursor` (required string),
and a connection named "StudentCoursesConnection" with fields `pageInfo`
(required PageInfo reference), `edges` (list of the edge), `totalCount`
(int), and `courses` (list of Course). -/
theorem student_course_example (pluralize : String → String)
    (sid cid fe fc : Nat) (sdef cdef : List (String × GraphqlType))
    (hne : sid ≠ cid) (hpl : pluralize "Course" = "Courses") :
    (generateConnectionAndEdge pluralize fe fc
        ⟨⟨sid, "Student", sdef⟩, ⟨cid, "Course", cdef⟩⟩).edge.name =
      "StudentCoursesEdge" ∧
    (generateConnectionAndEdge pluralize fe fc
        ⟨⟨sid, "Student", sdef⟩, ⟨cid, "Course", cdef⟩⟩).edge.definition =
      [("node", GraphqlType.intermediate cid "Course" cdef false false),
       ("cursor", required_string)] ∧
    (generateConnectionAndEdge pluralize fe fc
        ⟨⟨sid, "Student", sdef⟩, ⟨cid, "Course", cdef⟩⟩).connection.name =
      "StudentCoursesConnection" ∧
    (generateConnectionAndEdge pluralize fe fc
        ⟨⟨sid, "Student", sdef⟩, ⟨cid, "Course", cdef⟩⟩).connection.definition =
      [("pageInfo", PageInfo.attribute false true),
       ("edges", GraphqlType.intermediate fe "StudentCoursesEdge"
          [("node", GraphqlType.intermediate cid "Course" cdef false false),
           ("cursor", required_string)] true false),
       ("totalCount", int),
       ("courses", GraphqlType.intermediate cid "Course" cdef true false)] := by
  have hlow : toLowerCase "Courses" = "courses" := rfl
  refine ⟨?_, ?_, ?_, ?_⟩
  · simp [generateConnectionAndEdge, generateEdge, obtainName, hne, hpl]
  · simp [generateConnectionAndEdge, generateEdge, ObjectType.attribute, jsObject, jsInsert]
  · simp [generateConnectionAndEdge, generateConnection, obtainName, hne, hpl]
  · simp [generateConnectionAndEdge, generateConnection, generateEdge, obtainName,
      ObjectType.attribute, hne, hpl, hlow, jsObject, jsInsert]

/-- Witness for C6: the Student/Course pair with concrete identities. -/
theorem student_course_example_witness :
    (generateConnectionAndEdge plEx 3 4
        ⟨⟨1, "Student", []⟩, ⟨2, "Course", []⟩⟩).edge.name =
      "StudentCoursesEdge" ∧
    (generateConnectionAndEdge plEx 3 4
        ⟨⟨1, "Student", []⟩, ⟨2, "Course", []⟩⟩).edge.definition =
      [("node", GraphqlType.intermediate 2 "Course" [] false false),
       ("cursor", required_string)] ∧
    (generateConnectionAndEdge plEx 3 4
        ⟨⟨1, "Student", []⟩, ⟨2, "Course", []⟩⟩).connection.name =
      "StudentCoursesConnection" ∧
    (generateConnectionAndEdge plEx 3 4
        ⟨⟨1, "Student", []⟩, ⟨2, "Course", []⟩⟩).connection.definition =
      [("pageInfo", PageInfo.attribute false true),
       ("edges", GraphqlType.intermediate 3 "StudentCoursesEdge"
          [("node", GraphqlType.intermediate 2 "Course" [] false false),
           ("cursor", required_string)] true false),
       ("totalCount", int),
       ("courses", GraphqlType.intermediate 2 "Course" [] true false)] := by
  have h := student_course_example plEx 1 2 3 4 [] [] (by decide) rfl
  exact h

/-- C7 counterexample: two (base, target) pairs that are equal by value
(same names, same field shapes) but disagree on base/target identity
produce edges with different names: the self-pair drops the base-name
prefix while the pair of two distinct descriptors keeps it. -/
theorem determinism_cex :
    eraseObj (ObjectType.mk 20 "A" []) = eraseObj (ObjectType.mk 21 "A" []) ∧
    eraseObj (ObjectType.mk 20 "A" []) = eraseObj (ObjectType.mk 22 "A" []) ∧
    (generateConnectionAndEdge plEx 30 31 ⟨⟨20, "A", []⟩, ⟨20, "A", []⟩⟩).edge.name =
      "AsEdge" ∧
    (generateConnectionAndEdge plEx 32 33 ⟨⟨21, "A", []⟩, ⟨22, "A", []⟩⟩).edge.name =
      "AAsEdge" ∧
    ("AsEdge" : String) ≠ "AAsEdge" := by
  refine ⟨rfl, rfl, rfl, rfl, by decide⟩

/-- C7 (amended): two calls of the combined generator with (base, target)
pairs that are equal by value (same names and field shapes) and that agree
on whether base and target are the identical descriptor yield descriptors
with identical names and identical field shapes, though as distinct
instances. -/
theorem generateConnectionAndEdge_deterministic (pluralize : String → String)
    (o1 o2 : baseOptions) (f1 f2 g1 g2 : Nat)
    (hb : eraseObj o1.base = eraseObj o2.base)
    (ht : eraseObj o1.target = eraseObj o2.target)
    (hid : o1.base.id = o1.target.id ↔ o2.base.id = o2.target.id) :
    eraseObj (generateConnectionAndEdge pluralize f1 f2 o1).edge =
      eraseObj (generateConnectionAndEdge pluralize g1 g2 o2).edge ∧
    eraseObj (generateConnectionAndEdge pluralize f1 f2 o1).connection =
      eraseObj (generateConnectionAndEdge pluralize g1 g2 o2).connection := by
  have hbn : o1.base.name = o2.base.name := congrArg ObjShape.name hb
  have htn : o1.target.name = o2.target.name := congrArg ObjShape.name ht
  have htf : eraseFields o1.target.definition = eraseFields o2.target.definition :=
    congrArg ObjShape.fields ht
  have hsame : (o1.base.id == o1.target.id) = (o2.base.id == o2.target.id) := by
    by_cases h : o1.base.id = o1.target.id
    · simp [h, hid.mp h]
    · have h2 : ¬o2.base.id = o2.target.id := fun hh => h (hid.mpr hh)
      simp [h, h2]
  have hname : ∀ suffix, obtainName pluralize suffix o1 = obtainName pluralize suffix o2 := by
    intro suffix
    simp only [obtainName, hsame, hbn, htn]
  constructor
  · simp only [generateConnectionAndEdge, generateEdge, eraseObj, eraseFields_jsObject,
      List.map_cons, List.map_nil, eraseType_attribute, htn, htf, hname]
  · simp only [generateConnectionAndEdge, generateConnection, generateEdge, eraseObj,
      eraseFields_jsObject, List.map_cons, List.map_nil, eraseType_attribute,
      htn, htf, hname]

/-- Witness for C7 (amended): two value-equal Student/Course pairs with
different identities produce shape-identical edges and connections. -/
theorem generateConnectionAndEdge_deterministic_witness :
    eraseObj (generateConnectionAndEdge plEx 40 41
        ⟨⟨34, "Student", []⟩, ⟨35, "Course", []⟩⟩).edge =
      eraseObj (generateConnectionAndEdge plEx 42 43
        ⟨⟨36, "Student", []⟩, ⟨37, "Course", []⟩⟩).edge ∧
    eraseObj (generateConnectionAndEdge plEx 40 41
        ⟨⟨34, "Student", []⟩, ⟨35, "Course", []⟩⟩).connection =
      eraseObj (generateConnectionAndEdge plEx 42 43
        ⟨⟨36, "Student", []⟩, ⟨37, "Course", []⟩⟩).connection := by
  have h := generateConnectionAndEdge_deterministic plEx
    ⟨⟨34, "Student", []⟩, ⟨35, "Course", []⟩⟩
    ⟨⟨36, "Student", []⟩, ⟨37, "Course", []⟩⟩ 40 41 42 43 rfl rfl (by decide)
  exact h

/-- C8: there is a single shared PageInfo descriptor with fields
hasNextPage/hasPreviousPage (required booleans) and startCursor/endCursor
(optional strings), and every connection produced by `generateConnection`
holds its `pageInfo` field as a required reference to this descriptor. -/
theorem pageInfo_shared (pluralize : String → String) (fresh : Nat)
    (edge : ObjectType) (options : baseOptions) :
    PageInfo.name = "PageInfo" ∧
    PageInfo.definition =
      [("hasNextPage", required_boolean),
       ("hasPreviousPage", required_boolean),
       ("startCursor", string),
       ("endCursor", string)] ∧
    ((generateConnection pluralize fresh edge options).definition).lookup "pageInfo" =
      some (PageInfo.attribute false true) := by
  refine ⟨rfl, rfl, ?_⟩
  by_cases h : toLowerCase (pluralize options.target.name) = "edges"
  · rw [connection_def_eq pluralize fresh edge options h]
    rfl
  · rw [connection_def_ne pluralize fresh edge options h]
    rfl

/-- C9: the generators mutate nothing: threading the list of already
constructed descriptors through `generateEdgeH` / `generateConnectionH`,
the old list survives unchanged as a prefix (so the base, target, and all
previously built descriptors are untouched), and the only change is the
appended new descriptor, which equals the pure generator's result. -/
theorem generators_preserve_heap (pluralize : String → String)
    (heap : List ObjectType) (edge : ObjectType) (options : baseOptions) :
    (generateEdgeH pluralize heap options).2 =
      heap ++ [generateEdge pluralize heap.length options] ∧
    (generateEdgeH pluralize heap options).2.take heap.length = heap ∧
    (generateEdgeH pluralize heap options).1 = generateEdge pluralize heap.length options ∧
    (generateConnectionH pluralize heap edge options).2 =
      heap ++ [generateConnection pluralize heap.length edge options] ∧
    (generateConnectionH pluralize heap edge options).2.take heap.length = heap ∧
    (generateConnectionH pluralize heap edge options).1 =
      generateConnection pluralize heap.length edge options := by
  refine ⟨rfl, ?_, rfl, rfl, ?_, rfl⟩
  · simp [generateEdgeH]
  · simp [generateConnectionH]

/-- C10: the naming function and all three generators are total: on every
input each returns a value, with the expected name and composition; no
error or failure branch exists in the embedding. -/
theorem generators_total (pluralize : String → String) (suffix : String)
    (freshEdge freshConnection : Nat) (edge : ObjectType) (options : baseOptions) :
    (∃ n : String, obtainName pluralize suffix options = n) ∧
    (∃ e : ObjectType, generateEdge pluralize freshEdge options = e ∧
      e.name = obtainName pluralize "Edge" options) ∧
    (∃ c : ObjectType, generateConnection pluralize freshConnection edge options = c ∧
      c.name = obtainName pluralize "Connection" options) ∧
    (∃ r : ConnectionAndEdge,
      generateConnectionAndEdge pluralize freshEdge freshConnection options = r ∧
      r.edge = generateEdge pluralize freshEdge options ∧
      r.connection = generateConnection pluralize freshConnection r.edge options) :=
  ⟨⟨_, rfl⟩, ⟨_, rfl, rfl⟩, ⟨_, rfl, rfl⟩, ⟨_, rfl, rfl, rfl⟩⟩

end WasedaTime
